import Mathlib

/-!
Shallow embedding of the epic-linker sources (src/index.js, src/bundle.js,
src/utils.js) and proofs about the linking algorithm.

Conventions of the embedding:
* JS objects used as string-keyed maps (the global scope, each bundle's
  locals, the JS `Map`s) become association lists in insertion order.
* `null` / `undefined` become `Option.none`.
* Functions that can `throw` return `Except LinkError _`; each distinct
  error message of the source is one constructor of `LinkError`.
* JS functions stored as data (selectors, views, sagas, enhancers, deferred
  callbacks) are identified by opaque numeric ids; reducers, whose
  input/output behaviour the spec talks about, are real Lean functions.
-/

namespace EpicLinker

/-- Values held in the linker's global namespace: action-type strings
(published by `defineAction`), functions (selectors and other function
values, identified by an id), other plain values, and connected views
(optional connected-selector id, underlying component id, displayName). -/
inductive Value : Type where
  | str : String → Value
  | fn : Nat → Value
  | raw : Nat → Value
  | view : Option Nat → Nat → String → Value
deriving DecidableEq, Repr

/-- A redux action: a type string plus an arbitrary payload. -/
structure Action (π : Type) : Type where
  type : String
  payload : π

/-- Association-list lookup, mirroring JS property/Map access: first
binding for the key wins (keys are never duplicated by the code). -/
def alookup {κ β : Type} [DecidableEq κ] : List (κ × β) → κ → Option β
  | [], _ => none
  | (k, v) :: rest, key => if k = key then some v else alookup rest key

/-- The keys of an association list, in insertion order. -/
def akeys {κ β : Type} (l : List (κ × β)) : List κ :=
  l.map Prod.fst

/-- Association-list assignment, mirroring JS `obj[key] = v` /
`map.set(key, v)`: overwrite in place if present, append otherwise. -/
def aset {κ β : Type} [DecidableEq κ] : List (κ × β) → κ → β → List (κ × β)
  | [], key, v => [(key, v)]
  | (k, w) :: rest, key, v =>
    if k = key then (k, v) :: rest else (k, w) :: aset rest key v

/-- Errors thrown by the linker; one constructor per distinct `throw`
site/message in the source. -/
inductive LinkError : Type where
  | conflict : String → LinkError
  | actionTypeConflict : String → LinkError
  | undefinedDependency : String → LinkError
  | undeclaredDependency : String → LinkError
  | undefinedName : String → LinkError
  | invalidSelector : LinkError
  | invalidUse : LinkError
  | sealedError : LinkError
deriving DecidableEq, Repr

/-- utils.js `directCompose(secondReducer, firstReducer)`: a falsy (absent)
operand yields the other operand; otherwise the first reducer is applied
before the second. -/
def directCompose {σ α : Type} (secondReducer firstReducer : Option (σ → α → σ)) :
    Option (σ → α → σ) :=
  match firstReducer with
  | none => secondReducer
  | some f =>
    match secondReducer with
    | none => some f
    | some g => some (fun state action => g (f state action) action)

/-- utils.js `reverseCompose(firstReducer, secondReducer)`: a falsy (absent)
operand yields the other operand; otherwise the first reducer is applied
before the second. -/
def reverseCompose {σ α : Type} (firstReducer secondReducer : Option (σ → α → σ)) :
    Option (σ → α → σ) :=
  match firstReducer with
  | none => secondReducer
  | some f =>
    match secondReducer with
    | none => some f
    | some g => some (fun state action => g (f state action) action)

/-- utils.js `makeSafeProxy(obj, onError).get`: a read of a present key
returns its value, a read of an absent key calls `onError`, which at both
call sites of the repository throws. -/
def safeProxyGet (onError : String → LinkError) (target : List (String × Value))
    (property : String) : Except LinkError Value :=
  match alookup target property with
  | some v => .ok v
  | none => .error (onError property)

/-- The linker's mutable state in index.js `link`: the global scope, the
type map, the action-type registry, the enhancer list and the use queue,
plus the contents of every local scope (bundle locals and `pack` targets),
keyed by an allocation id (JS object identity). -/
structure LinkerState : Type where
  globalScope : List (String × Value)
  typeMap : List (String × String)
  nameForActionType : List (String × String)
  enhancers : List Nat
  useQueue : List (Nat × List String)
  scopes : List (Nat × List (String × Value))
  nextId : Nat
deriving DecidableEq, Repr

/-- The contents of the local scope with the given id. -/
def scopeOf (s : LinkerState) (id : Nat) : List (String × Value) :=
  (alookup s.scopes id).getD []

/-- Assign `name := v` inside the local scope with the given id
(JS `locals[name] = value` in `inject`). -/
def setScopeVar (s : LinkerState) (id : Nat) (name : String) (v : Value) :
    LinkerState :=
  let upd := fun (p : Nat × List (String × Value)) =>
    if p.1 = id then (p.1, aset p.2 name v) else p
  { s with scopes := s.scopes.map upd }

/-- index.js `declareActionType`: record the action type unless it is
already claimed. -/
def declareActionType (s : LinkerState) (actionType name : String) :
    Except LinkError LinkerState :=
  if (alookup s.nameForActionType actionType).isSome then
    .error (.actionTypeConflict actionType)
  else
    .ok { s with nameForActionType := s.nameForActionType ++ [(actionType, name)] }

/-- index.js `declareUse`: queue a (target scope, names) pair. Via the
public API the second component is always an array of names. -/
def declareUse (s : LinkerState) (targetId : Nat) (names : List String) :
    LinkerState :=
  { s with useQueue := s.useQueue ++ [(targetId, names)] }

/-- index.js `addEnhancer`: append to the flat enhancer list. -/
def linkerAddEnhancer (s : LinkerState) (enhancer : Nat) : LinkerState :=
  { s with enhancers := s.enhancers ++ [enhancer] }

/-- index.js `publish`: fail on an already-published name, otherwise record
the category tag and the value. -/
def publish (s : LinkerState) (type name : String) (value : Value) :
    Except LinkError LinkerState :=
  if (alookup s.globalScope name).isSome then
    .error (.conflict name)
  else
    .ok { s with typeMap := aset s.typeMap name type,
                 globalScope := s.globalScope ++ [(name, value)] }

/-- index.js `lookup`: a plain read of the global scope; an absent name
yields `undefined` rather than an error. -/
def lookupGlobal (s : LinkerState) (name : String) : Option Value :=
  alookup s.globalScope name

/-- Contiguous-substring test on character lists, used to model JS
`String.prototype.indexOf(needle) !== -1`. -/
def hasSub (hay needle : List Char) : Bool :=
  (List.range (hay.length + 1)).any
    (fun i => decide ((hay.drop i).take needle.length = needle))

/-- The `typeFilter` argument of index.js `inject`: absent, an array of
type tags, or a string (link passes the string 'views' in its second
injection pass). -/
inductive TypeFilter : Type where
  | noFilter : TypeFilter
  | arr : List String → TypeFilter
  | str : String → TypeFilter
deriving DecidableEq, Repr

/-- The test `-1 !== typeFilter.indexOf(type)` of index.js `inject`, with
JS semantics: `Array.prototype.indexOf` uses strict equality (an undefined
type matches no string element), while `String.prototype.indexOf` coerces
its argument to a string (an undefined type becomes "undefined") and
searches for it as a substring. -/
def filterHit (filter : TypeFilter) (ty : Option String) : Bool :=
  match filter with
  | .noFilter => true
  | .arr ts =>
    match ty with
    | some t => ts.contains t
    | none => false
  | .str fs =>
    let t := match ty with | some t => t | none => "undefined"
    hasSub fs.toList t.toList

/-- The guard of index.js `inject`: with no filter the injection always
proceeds; with a filter it proceeds only when the name's registered type
passes the filter. -/
def injectProceeds (filter : TypeFilter) (s : LinkerState) (name : String) : Bool :=
  match filter with
  | .noFilter => true
  | _ => filterHit filter (alookup s.typeMap name)

/-- index.js `inject`: when a type filter is given and the name's
registered type does not pass it, do nothing; otherwise copy the global
value into the target scope, or fail if the name was never published. -/
def inject (filter : TypeFilter) (s : LinkerState) (targetId : Nat)
    (name : String) : Except LinkError LinkerState :=
  if injectProceeds filter s name then
    match alookup s.globalScope name with
    | some v => .ok (setScopeVar s targetId name v)
    | none => .error (.undefinedDependency name)
  else
    .ok s

/-- Inject each of the listed names into the target scope, stopping at the
first error (inner loop of index.js `injectAll`). -/
def injectNames (filter : TypeFilter) (targetId : Nat) :
    List String → LinkerState → Except LinkError LinkerState
  | [], s => .ok s
  | n :: ns, s =>
    match inject filter s targetId n with
    | .error e => .error e
    | .ok s2 => injectNames filter targetId ns s2

/-- Drain a list of use-queue entries (outer loop of index.js
`injectAll`). -/
def injectQueue (filter : TypeFilter) :
    List (Nat × List String) → LinkerState → Except LinkError LinkerState
  | [], s => .ok s
  | (targetId, names) :: rest, s =>
    match injectNames filter targetId names s with
    | .error e => .error e
    | .ok s2 => injectQueue filter rest s2

/-- index.js `injectAll`: drain the whole use queue (injection never
modifies the queue itself). -/
def injectAll (filter : TypeFilter) (s : LinkerState) :
    Except LinkError LinkerState :=
  injectQueue filter s.useQueue s

/-- A queued view descriptor (bundle.js `defineView`): the declared name,
an optional selector — either a selector name or a direct function value —
and the underlying component. The two-argument overload of `defineView`
is the `selector := none` case. -/
structure ViewDecl : Type where
  name : String
  selector : Option (String ⊕ Nat)
  view : Nat
deriving DecidableEq, Repr

/-- bundle.js `Bundle`: the locals scope (by id, shared with the linker
state), the declaration lists, the sealed flag and the ordered children.
Reducers are over a state type `σ` and actions with payload type `π`. -/
inductive Bundle (σ π : Type) : Type where
  | mk (localsId : Nat)
       (earlyReducers : List (σ → Action π → σ))
       (actionReducers : List (String × (σ → Action π → σ)))
       (lateReducers : List (σ → Action π → σ))
       (views : List ViewDecl)
       (defers : List Nat)
       (sagas : List Nat)
       (sealed : Bool)
       (bundles : List (Bundle σ π))

namespace Bundle

variable {σ π : Type}

/-- A freshly constructed bundle (the `Bundle` constructor function). -/
def new (localsId : Nat) : Bundle σ π :=
  .mk localsId [] [] [] [] [] [] false []

def localsId : Bundle σ π → Nat
  | .mk i _ _ _ _ _ _ _ _ => i

def earlyReducers : Bundle σ π → List (σ → Action π → σ)
  | .mk _ er _ _ _ _ _ _ _ => er

def actionReducers : Bundle σ π → List (String × (σ → Action π → σ))
  | .mk _ _ ar _ _ _ _ _ _ => ar

def lateReducers : Bundle σ π → List (σ → Action π → σ)
  | .mk _ _ _ lr _ _ _ _ _ => lr

def views : Bundle σ π → List ViewDecl
  | .mk _ _ _ _ vs _ _ _ _ => vs

def defers : Bundle σ π → List Nat
  | .mk _ _ _ _ _ df _ _ _ => df

def sagas : Bundle σ π → List Nat
  | .mk _ _ _ _ _ _ sg _ _ => sg

def sealed : Bundle σ π → Bool
  | .mk _ _ _ _ _ _ _ sl _ => sl

def bundles : Bundle σ π → List (Bundle σ π)
  | .mk _ _ _ _ _ _ _ _ bs => bs

def pushBundle : Bundle σ π → Bundle σ π → Bundle σ π
  | .mk i er ar lr vs df sg sl bs, c => .mk i er ar lr vs df sg sl (bs ++ [c])

def pushEarlyReducer : Bundle σ π → (σ → Action π → σ) → Bundle σ π
  | .mk i er ar lr vs df sg sl bs, r => .mk i (er ++ [r]) ar lr vs df sg sl bs

def pushActionReducer : Bundle σ π → String × (σ → Action π → σ) → Bundle σ π
  | .mk i er ar lr vs df sg sl bs, r => .mk i er (ar ++ [r]) lr vs df sg sl bs

def pushLateReducer : Bundle σ π → (σ → Action π → σ) → Bundle σ π
  | .mk i er ar lr vs df sg sl bs, r => .mk i er ar (lr ++ [r]) vs df sg sl bs

def pushView : Bundle σ π → ViewDecl → Bundle σ π
  | .mk i er ar lr vs df sg sl bs, v => .mk i er ar lr (vs ++ [v]) df sg sl bs

def pushDefer : Bundle σ π → Nat → Bundle σ π
  | .mk i er ar lr vs df sg sl bs, c => .mk i er ar lr vs (df ++ [c]) sg sl bs

def pushSaga : Bundle σ π → Nat → Bundle σ π
  | .mk i er ar lr vs df sg sl bs, c => .mk i er ar lr vs df (sg ++ [c]) sl bs

/-- bundle.js `Bundle.prototype.use`: assert not sealed, then queue a
use entry for this bundle's locals. -/
def use (b : Bundle σ π) (s : LinkerState) (names : List String) :
    Except LinkError LinkerState :=
  if b.sealed then .error .sealedError
  else .ok (declareUse s b.localsId names)

/-- bundle.js `Bundle.prototype.pack`: assert not sealed, create a fresh
safe-proxied scope, queue a use entry targeting it, and return it. -/
def pack (b : Bundle σ π) (s : LinkerState) (names : List String) :
    Except LinkError (Nat × LinkerState) :=
  if b.sealed then .error .sealedError
  else
    let id := s.nextId
    let s1 := { s with nextId := id + 1, scopes := s.scopes ++ [(id, [])] }
    .ok (id, declareUse s1 id names)

/-- bundle.js `Bundle.prototype.defineValue`: assert not sealed, publish
under tag 'value', then `use` the name. -/
def defineValue (b : Bundle σ π) (s : LinkerState) (name : String)
    (value : Value) : Except LinkError LinkerState :=
  if b.sealed then .error .sealedError
  else
    match publish s "value" name value with
    | .error e => .error e
    | .ok s1 => b.use s1 [name]

/-- bundle.js `Bundle.prototype.defineSelector`: assert not sealed,
publish under tag 'selector', then `use` the name. -/
def defineSelector (b : Bundle σ π) (s : LinkerState) (name : String)
    (value : Value) : Except LinkError LinkerState :=
  if b.sealed then .error .sealedError
  else
    match publish s "selector" name value with
    | .error e => .error e
    | .ok s1 => b.use s1 [name]

/-- bundle.js `Bundle.prototype.defineAction`: assert not sealed, register
the action type, publish the type string under tag 'action', then `use`
the name. -/
def defineAction (b : Bundle σ π) (s : LinkerState) (name actionType : String) :
    Except LinkError LinkerState :=
  if b.sealed then .error .sealedError
  else
    match declareActionType s actionType name with
    | .error e => .error e
    | .ok s1 =>
      match publish s1 "action" name (Value.str actionType) with
      | .error e => .error e
      | .ok s2 => b.use s2 [name]

/-- bundle.js `Bundle.prototype.defineView`: assert not sealed, `use` the
name, and queue the view descriptor for `linkViews`. -/
def defineView (b : Bundle σ π) (s : LinkerState) (name : String)
    (selector : Option (String ⊕ Nat)) (view : Nat) :
    Except LinkError (Bundle σ π × LinkerState) :=
  if b.sealed then .error .sealedError
  else
    match b.use s [name] with
    | .error e => .error e
    | .ok s1 => .ok (b.pushView { name := name, selector := selector, view := view }, s1)

/-- bundle.js `Bundle.prototype.addReducer`, two-argument form: assert not
sealed, `use` the action name, and queue the (name, reducer) pair. (The
one-argument form pushes its argument on the late-reducer list and is the
same code path as `addLateReducer`.) -/
def addReducer (b : Bundle σ π) (s : LinkerState) (name : String)
    (reducer : σ → Action π → σ) : Except LinkError (Bundle σ π × LinkerState) :=
  if b.sealed then .error .sealedError
  else
    match b.use s [name] with
    | .error e => .error e
    | .ok s1 => .ok (b.pushActionReducer (name, reducer), s1)

/-- bundle.js `Bundle.prototype.addEarlyReducer`: assert not sealed, then
append. -/
def addEarlyReducer (b : Bundle σ π) (reducer : σ → Action π → σ) :
    Except LinkError (Bundle σ π) :=
  if b.sealed then .error .sealedError
  else .ok (b.pushEarlyReducer reducer)

/-- bundle.js `Bundle.prototype.addLateReducer`: assert not sealed, then
append. -/
def addLateReducer (b : Bundle σ π) (reducer : σ → Action π → σ) :
    Except LinkError (Bundle σ π) :=
  if b.sealed then .error .sealedError
  else .ok (b.pushLateReducer reducer)

/-- bundle.js `Bundle.prototype.addSaga`: assert not sealed, then
append. -/
def addSaga (b : Bundle σ π) (saga : Nat) : Except LinkError (Bundle σ π) :=
  if b.sealed then .error .sealedError
  else .ok (b.pushSaga saga)

/-- bundle.js `Bundle.prototype.addEnhancer`: assert not sealed, then
forward to the linker's flat enhancer list. -/
def addEnhancer (b : Bundle σ π) (s : LinkerState) (enhancer : Nat) :
    Except LinkError LinkerState :=
  if b.sealed then .error .sealedError
  else .ok (linkerAddEnhancer s enhancer)

/-- bundle.js `Bundle.prototype.defer`: assert not sealed, then append the
callback. -/
def defer (b : Bundle σ π) (callback : Nat) : Except LinkError (Bundle σ π) :=
  if b.sealed then .error .sealedError
  else .ok (b.pushDefer callback)

/-- bundle.js `Bundle.prototype.lookup`: forwards to the linker's global
read. The source performs no sealed check here, and a read of an absent
name yields `undefined` rather than an error. -/
def lookup (_b : Bundle σ π) (s : LinkerState) (name : String) :
    Except LinkError (Option Value) :=
  .ok (lookupGlobal s name)

end Bundle

variable {σ π : Type}

mutual
/-- bundle.js `Bundle.prototype._seal` (with its recursion over the
children): set the sealed flag on every node of the tree. -/
def Bundle.seal : Bundle σ π → Bundle σ π
  | .mk i er ar lr vs df sg _ bs => .mk i er ar lr vs df sg true (sealList bs)

def sealList : List (Bundle σ π) → List (Bundle σ π)
  | [] => []
  | b :: bs => b.seal :: sealList bs
end

/-- Selector resolution inside bundle.js `Bundle.prototype._linkViews`:
a string selector is read from the declaring bundle's locals (a
safe-proxy read: an absent key throws `use of undeclared dependency`);
a value that is not a function is the `invalid selector for view` error;
a directly supplied function is used as-is. -/
def resolveSelector (localsId : Nat) (s : LinkerState) (sel : String ⊕ Nat) :
    Except LinkError Nat :=
  match sel with
  | .inl selName =>
    match alookup (scopeOf s localsId) selName with
    | some (Value.fn k) => .ok k
    | some _ => .error .invalidSelector
    | none => .error (.undeclaredDependency selName)
  | .inr k => .ok k

/-- Body of the first loop of bundle.js `Bundle.prototype._linkViews`,
for one view descriptor: resolve a string selector through the declaring
bundle's locals, fail if the resolved selector is not a function,
connect, set the displayName and publish under tag 'view'. -/
def linkViewOne (localsId : Nat) (s : LinkerState) (v : ViewDecl) :
    Except LinkError LinkerState :=
  match v.selector with
  | none =>
    publish s "view" v.name (Value.view none v.view ("View(" ++ v.name ++ ")"))
  | some sel =>
    match resolveSelector localsId s sel with
    | .error e => .error e
    | .ok k =>
      publish s "view" v.name (Value.view (some k) v.view ("View(" ++ v.name ++ ")"))

/-- First loop of `_linkViews`: the bundle's own view descriptors, in
declaration order. -/
def linkViewsOwn (localsId : Nat) : List ViewDecl → LinkerState →
    Except LinkError LinkerState
  | [], s => .ok s
  | v :: vs, s =>
    match linkViewOne localsId s v with
    | .error e => .error e
    | .ok s1 => linkViewsOwn localsId vs s1

mutual
/-- bundle.js `Bundle.prototype._linkViews`: own views first, then the
included bundles in order. -/
def Bundle.linkViews : Bundle σ π → LinkerState → Except LinkError LinkerState
  | .mk i _ _ _ vs _ _ _ bs, s =>
    match linkViewsOwn i vs s with
    | .error e => .error e
    | .ok s1 => linkViewsList bs s1

def linkViewsList : List (Bundle σ π) → LinkerState → Except LinkError LinkerState
  | [], s => .ok s
  | b :: bs, s =>
    match b.linkViews s with
    | .error e => .error e
    | .ok s1 => linkViewsList bs s1
end

/-- Body of the first loop of bundle.js `Bundle.prototype._buildActionMap`
for one (name, reducer) pair: resolve the action type through the
declaring bundle's locals (a safe-proxy read: an absent key throws) and
compose the reducer onto the existing chain with `reverseCompose`. -/
def buildActionOne (localsId : Nat) (s : LinkerState)
    (am : List (Value × (σ → Action π → σ))) (nr : String × (σ → Action π → σ)) :
    Except LinkError (List (Value × (σ → Action π → σ))) :=
  match alookup (scopeOf s localsId) nr.1 with
  | none => .error (.undeclaredDependency nr.1)
  | some actionType =>
    let composed :=
      match reverseCompose (alookup am actionType) (some nr.2) with
      | some f => f
      | none => nr.2
    .ok (aset am actionType composed)

/-- First loop of `_buildActionMap`: the bundle's own action reducers, in
declaration order. -/
def buildActionOwn (localsId : Nat) (s : LinkerState) :
    List (String × (σ → Action π → σ)) → List (Value × (σ → Action π → σ)) →
    Except LinkError (List (Value × (σ → Action π → σ)))
  | [], am => .ok am
  | nr :: nrs, am =>
    match buildActionOne localsId s am nr with
    | .error e => .error e
    | .ok am1 => buildActionOwn localsId s nrs am1

mutual
/-- bundle.js `Bundle.prototype._buildActionMap`: own action reducers
first, then the included bundles in order, threading one shared map. -/
def Bundle.buildActionMap : Bundle σ π → LinkerState →
    List (Value × (σ → Action π → σ)) →
    Except LinkError (List (Value × (σ → Action π → σ)))
  | .mk i _ ar _ _ _ _ _ bs, s, am =>
    match buildActionOwn i s ar am with
    | .error e => .error e
    | .ok am1 => buildActionMapList bs s am1

def buildActionMapList : List (Bundle σ π) → LinkerState →
    List (Value × (σ → Action π → σ)) →
    Except LinkError (List (Value × (σ → Action π → σ)))
  | [], _, am => .ok am
  | b :: bs, s, am =>
    match b.buildActionMap s am with
    | .error e => .error e
    | .ok am1 => buildActionMapList bs s am1
end

mutual
/-- bundle.js `Bundle.prototype._earlyReducer`: concatenate the bundle's
own early reducers with the children's composed early reducers and fold
with `reverseCompose` starting from null, so that reducers added first
apply first. -/
def Bundle.earlyReducer : Bundle σ π → Option (σ → Action π → σ)
  | .mk _ er _ _ _ _ _ _ bs =>
    (er.map some ++ earlyReducerList bs).foldl reverseCompose none

def earlyReducerList : List (Bundle σ π) → List (Option (σ → Action π → σ))
  | [] => []
  | b :: bs => b.earlyReducer :: earlyReducerList bs
end

mutual
/-- bundle.js `Bundle.prototype._lateReducer`: concatenate the bundle's
own late reducers with the children's composed late reducers and fold
with `directCompose` starting from null, so that reducers added first
apply last. -/
def Bundle.lateReducer : Bundle σ π → Option (σ → Action π → σ)
  | .mk _ _ _ lr _ _ _ _ bs =>
    (lr.map some ++ lateReducerList bs).foldl directCompose none

def lateReducerList : List (Bundle σ π) → List (Option (σ → Action π → σ))
  | [] => []
  | b :: bs => b.lateReducer :: lateReducerList bs
end

mutual
/-- bundle.js `Bundle.prototype._runDefers`: the returned list records, in
execution order, each callback invoked together with the argument list it
is invoked with. `_runDefers` declares no parameters and invokes each
callback as `defers[i].call()`, so every callback receives no arguments;
a bundle's own callbacks run before those of its included bundles. -/
def Bundle.runDefers (A : Type) : Bundle σ π → List (Nat × List A)
  | .mk _ _ _ _ _ df _ _ bs =>
    df.map (fun cb => (cb, ([] : List A))) ++ runDefersList A bs

def runDefersList (A : Type) : List (Bundle σ π) → List (Nat × List A)
  | [] => []
  | b :: bs => b.runDefers A ++ runDefersList A bs
end

/-- One linker step of a builder function. A builder is a list of calls on
the bundle node it receives; `includeB` carries the included builder. -/
inductive Directive (σ π : Type) : Type where
  | includeB : List (Directive σ π) → Directive σ π
  | use : List String → Directive σ π
  | pack : List String → Directive σ π
  | defineValue : String → Value → Directive σ π
  | defineSelector : String → Value → Directive σ π
  | defineAction : String → String → Directive σ π
  | defineView : String → Option (String ⊕ Nat) → Nat → Directive σ π
  | addReducer : String → (σ → Action π → σ) → Directive σ π
  | addEarlyReducer : (σ → Action π → σ) → Directive σ π
  | addLateReducer : (σ → Action π → σ) → Directive σ π
  | addSaga : Nat → Directive σ π
  | addEnhancer : Nat → Directive σ π
  | defer : Nat → Directive σ π

/-- Keep the bundle unchanged while propagating a state-only result. -/
def keepBundle (b : Bundle σ π) :
    Except LinkError LinkerState → Except LinkError (Bundle σ π × LinkerState)
  | .error e => .error e
  | .ok s => .ok (b, s)

/-- Keep the state unchanged while propagating a bundle-only result. -/
def keepState (s : LinkerState) :
    Except LinkError (Bundle σ π) → Except LinkError (Bundle σ π × LinkerState)
  | .error e => .error e
  | .ok b => .ok (b, s)

mutual
/-- Execute one directive against a bundle node and the linker state.
`includeB` is bundle.js `Bundle.prototype.include`: assert not sealed,
create a child bundle sharing the linker, run the included builder on it
synchronously, and append it to this node's child list. -/
def runDirective : Directive σ π → Bundle σ π → LinkerState →
    Except LinkError (Bundle σ π × LinkerState)
  | .includeB builder, b, s =>
    if b.sealed then .error .sealedError
    else
      match runBuilder builder (Bundle.new s.nextId)
          { s with nextId := s.nextId + 1, scopes := s.scopes ++ [(s.nextId, [])] } with
      | .error e => .error e
      | .ok (child, s2) => .ok (b.pushBundle child, s2)
  | .use names, b, s => keepBundle b (b.use s names)
  | .pack names, b, s =>
    match b.pack s names with
    | .error e => .error e
    | .ok (_, s2) => .ok (b, s2)
  | .defineValue name v, b, s => keepBundle b (b.defineValue s name v)
  | .defineSelector name v, b, s => keepBundle b (b.defineSelector s name v)
  | .defineAction name ty, b, s => keepBundle b (b.defineAction s name ty)
  | .defineView name sel v, b, s => b.defineView s name sel v
  | .addReducer name r, b, s => b.addReducer s name r
  | .addEarlyReducer r, b, s => keepState s (b.addEarlyReducer r)
  | .addLateReducer r, b, s => keepState s (b.addLateReducer r)
  | .addSaga id, b, s => keepState s (b.addSaga id)
  | .addEnhancer e, b, s => keepBundle b (b.addEnhancer s e)
  | .defer cb, b, s => keepState s (b.defer cb)

/-- Execute a builder: its directives in order, threading bundle and
state. -/
def runBuilder : List (Directive σ π) → Bundle σ π → LinkerState →
    Except LinkError (Bundle σ π × LinkerState)
  | [], b, s => .ok (b, s)
  | d :: ds, b, s =>
    match runDirective d b s with
    | .error e => .error e
    | .ok (b2, s2) => runBuilder ds b2 s2
end

/-- What index.js `link` returns, shorn of the external collaborators: the
global scope (exposed through a safe proxy, see `scopeRead`), the composed
store reducer, the sealed bundle tree (captured by the `finalize` closure)
and the final linker state. -/
structure LinkResult (σ π : Type) : Type where
  scope : List (String × Value)
  reducer : Option (σ → Action π → σ)
  root : Bundle σ π
  state : LinkerState

/-- index.js `link`: build the tree by running the root builder, seal,
inject non-view dependencies, link views, inject view dependencies, build
the action map, and compose the store reducer as
early stage, then action dispatch, then late stage. -/
def link (rootBuilder : List (Directive σ π)) :
    Except LinkError (LinkResult σ π) :=
  let s0 : LinkerState :=
    { globalScope := [], typeMap := [], nameForActionType := [],
      enhancers := [], useQueue := [], scopes := [(0, [])], nextId := 1 }
  match runBuilder rootBuilder (Bundle.new 0) s0 with
  | .error e => .error e
  | .ok (root1, s1) =>
    let root : Bundle σ π := root1.seal
    match injectAll (.arr ["action", "selector", "value"]) s1 with
    | .error e => .error e
    | .ok s2 =>
      match root.linkViews s2 with
      | .error e => .error e
      | .ok s3 =>
        match injectAll (.str "views") s3 with
        | .error e => .error e
        | .ok s4 =>
          match root.buildActionMap s4 [] with
          | .error e => .error e
          | .ok actionMap =>
            let actionReducer : σ → Action π → σ := fun state action =>
              match alookup actionMap (Value.str action.type) with
              | some r => r state action
              | none => state
            let reducer :=
              [root.earlyReducer, some actionReducer, root.lateReducer].foldl
                reverseCompose none
            .ok { scope := s4.globalScope, reducer := reducer,
                  root := root, state := s4 }

/-- index.js `finalize(...args)`: calls `rootBundle._runDefers(...args)`.
Since `_runDefers` declares no parameters and calls each callback with
`.call()`, the arguments passed to `finalize` reach no callback; the
records returned by `runDefers` carry the actual (empty) argument lists. -/
def finalize {A : Type} (res : LinkResult σ π) (_args : List A) :
    List (Nat × List A) :=
  Bundle.runDefers A res.root

/-- A read of the returned `scope` object, which index.js wraps with
`makeSafeProxy(globalScope, undefinedNameError)`. -/
def scopeRead (res : LinkResult σ π) (name : String) : Except LinkError Value :=
  safeProxyGet LinkError.undefinedName res.scope name

/-- A read of a bundle's local dependency view, which bundle.js wraps with
`makeSafeProxy(\x7b\x7d, undeclaredDependencyError)`. -/
def localsRead (s : LinkerState) (localsId : Nat) (name : String) :
    Except LinkError Value :=
  safeProxyGet LinkError.undeclaredDependency (scopeOf s localsId) name

/-- Observation of the linked store's reducer: run `link`, then apply the
composed reducer to one state and action. -/
def linkedReduce (rootBuilder : List (Directive σ π)) (state : σ)
    (action : Action π) : Option σ :=
  match link rootBuilder with
  | .error _ => none
  | .ok res =>
    match res.reducer with
    | none => none
    | some r => some (r state action)

/-- Link-time invariant: no duplicate names in the global scope and no
duplicate action types in the registry. -/
def GoodState (s : LinkerState) : Prop :=
  (akeys s.globalScope).Nodup ∧ (s.nameForActionType.map Prod.fst).Nodup

section Invariants

theorem alookup_none_iff {κ β : Type} [DecidableEq κ] (l : List (κ × β)) (key : κ) :
    alookup l key = none ↔ key ∉ akeys l := by
  induction l with
  | nil => simp [alookup, akeys]
  | cons p rest ih =>
    obtain ⟨a, b⟩ := p
    by_cases hk : a = key
    · subst hk
      simp [alookup, akeys]
    · simp [alookup, akeys, hk, ih]
      intro h
      exact fun hh => hk hh.symm

theorem publish_ok {s : LinkerState} {ty name : String} {v : Value} {s2 : LinkerState}
    (h : publish s ty name v = .ok s2) :
    alookup s.globalScope name = none
    ∧ s2.globalScope = s.globalScope ++ [(name, v)]
    ∧ s2.nameForActionType = s.nameForActionType := by
  unfold publish at h
  by_cases hc : (alookup s.globalScope name).isSome
  · simp [hc] at h
  · simp [hc] at h
    rw [Option.not_isSome_iff_eq_none] at hc
    exact ⟨hc, by rw [← h], by rw [← h]⟩

theorem publish_good {s : LinkerState} {ty name : String} {v : Value} {s2 : LinkerState}
    (h : publish s ty name v = .ok s2) (hg : GoodState s) : GoodState s2 := by
  obtain ⟨hn, hsc, hat⟩ := publish_ok h
  constructor
  · rw [hsc]
    have hk : akeys (s.globalScope ++ [(name, v)]) = akeys s.globalScope ++ [name] := by
      simp [akeys]
    rw [hk, List.nodup_append]
    refine ⟨hg.1, List.nodup_singleton _, ?_⟩
    intro x hx hx2
    simp at hx2
    subst hx2
    exact (alookup_none_iff _ _).mp hn hx
  · rw [hat]; exact hg.2

theorem declareActionType_ok {s : LinkerState} {ty name : String} {s2 : LinkerState}
    (h : declareActionType s ty name = .ok s2) :
    alookup s.nameForActionType ty = none
    ∧ s2.nameForActionType = s.nameForActionType ++ [(ty, name)]
    ∧ s2.globalScope = s.globalScope := by
  unfold declareActionType at h
  by_cases hc : (alookup s.nameForActionType ty).isSome
  · simp [hc] at h
  · simp [hc] at h
    rw [Option.not_isSome_iff_eq_none] at hc
    exact ⟨hc, by rw [← h], by rw [← h]⟩

theorem alookup_none_iff_fst {β : Type} (l : List (String × β)) (key : String) :
    alookup l key = none ↔ key ∉ l.map Prod.fst := by
  have := alookup_none_iff l key
  simpa [akeys] using this

theorem declareActionType_good {s : LinkerState} {ty name : String} {s2 : LinkerState}
    (h : declareActionType s ty name = .ok s2) (hg : GoodState s) : GoodState s2 := by
  obtain ⟨hn, hat, hsc⟩ := declareActionType_ok h
  constructor
  · rw [hsc]; exact hg.1
  · rw [hat]
    have hk : (s.nameForActionType ++ [(ty, name)]).map Prod.fst
        = s.nameForActionType.map Prod.fst ++ [ty] := by simp
    rw [hk, List.nodup_append]
    refine ⟨hg.2, List.nodup_singleton _, ?_⟩
    intro x hx hx2
    simp at hx2
    subst hx2
    exact (alookup_none_iff_fst _ _).mp hn hx

theorem use_good {σ π : Type} {b : Bundle σ π} {s : LinkerState} {names : List String}
    {s2 : LinkerState} (h : b.use s names = .ok s2) (hg : GoodState s) : GoodState s2 := by
  unfold Bundle.use at h
  split at h
  · simp at h
  · cases h
    exact hg

theorem pack_good {σ π : Type} {b : Bundle σ π} {s : LinkerState} {names : List String}
    {n : Nat} {s2 : LinkerState} (h : b.pack s names = .ok (n, s2)) (hg : GoodState s) :
    GoodState s2 := by
  unfold Bundle.pack at h
  split at h
  · simp at h
  · cases h
    exact hg

theorem defineValue_good {σ π : Type} {b : Bundle σ π} {s : LinkerState}
    {name : String} {v : Value} {s2 : LinkerState}
    (h : b.defineValue s name v = .ok s2) (hg : GoodState s) : GoodState s2 := by
  unfold Bundle.defineValue at h
  split at h
  · simp at h
  · split at h
    · simp at h
    · rename_i xa sa ha
      exact use_good h (publish_good ha hg)

theorem defineSelector_good {σ π : Type} {b : Bundle σ π} {s : LinkerState}
    {name : String} {v : Value} {s2 : LinkerState}
    (h : b.defineSelector s name v = .ok s2) (hg : GoodState s) : GoodState s2 := by
  unfold Bundle.defineSelector at h
  split at h
  · simp at h
  · split at h
    · simp at h
    · rename_i xa sa ha
      exact use_good h (publish_good ha hg)

theorem defineAction_good {σ π : Type} {b : Bundle σ π} {s : LinkerState}
    {name ty : String} {s2 : LinkerState}
    (h : b.defineAction s name ty = .ok s2) (hg : GoodState s) : GoodState s2 := by
  unfold Bundle.defineAction at h
  split at h
  · simp at h
  · split at h
    · simp at h
    · split at h
      · simp at h
      · rename_i xa sa ha xb sb hb
        exact use_good h (publish_good hb (declareActionType_good ha hg))

theorem defineView_good {σ π : Type} {b : Bundle σ π} {s : LinkerState}
    {name : String} {sel : Option (String ⊕ Nat)} {v : Nat}
    {b2 : Bundle σ π} {s2 : LinkerState}
    (h : b.defineView s name sel v = .ok (b2, s2)) (hg : GoodState s) : GoodState s2 := by
  unfold Bundle.defineView at h
  split at h
  · simp at h
  · split at h
    · simp at h
    · rename_i xa sa ha
      cases h
      exact use_good ha hg

theorem addReducer_good {σ π : Type} {b : Bundle σ π} {s : LinkerState}
    {name : String} {r : σ → Action π → σ} {b2 : Bundle σ π} {s2 : LinkerState}
    (h : b.addReducer s name r = .ok (b2, s2)) (hg : GoodState s) : GoodState s2 := by
  unfold Bundle.addReducer at h
  split at h
  · simp at h
  · split at h
    · simp at h
    · rename_i xa sa ha
      cases h
      exact use_good ha hg

theorem addEnhancer_good {σ π : Type} {b : Bundle σ π} {s : LinkerState}
    {e : Nat} {s2 : LinkerState}
    (h : b.addEnhancer s e = .ok s2) (hg : GoodState s) : GoodState s2 := by
  unfold Bundle.addEnhancer at h
  split at h
  · simp at h
  · cases h
    exact hg

theorem keepBundle_ok {σ π : Type} {b : Bundle σ π} {r : Except LinkError LinkerState}
    {b2 : Bundle σ π} {s2 : LinkerState} (h : keepBundle b r = .ok (b2, s2)) :
    r = .ok s2 := by
  cases r with
  | error e => simp [keepBundle] at h
  | ok s3 =>
    simp only [keepBundle] at h
    cases h
    rfl

theorem keepState_ok {σ π : Type} {s : LinkerState} {r : Except LinkError (Bundle σ π)}
    {b2 : Bundle σ π} {s2 : LinkerState} (h : keepState s r = .ok (b2, s2)) :
    s2 = s := by
  cases r with
  | error e => simp [keepState] at h
  | ok b3 =>
    simp only [keepState] at h
    cases h
    rfl

mutual
theorem runDirective_good {σ π : Type} {d : Directive σ π} {b : Bundle σ π}
    {s : LinkerState} {b2 : Bundle σ π} {s2 : LinkerState}
    (h : runDirective d b s = .ok (b2, s2)) (hg : GoodState s) : GoodState s2 := by
  cases d with
  | includeB builder =>
    unfold runDirective at h
    split at h
    · simp at h
    · split at h
      · simp at h
      · rename_i xa child s3 ha
        cases h
        exact runBuilder_good ha hg
  | use names => exact use_good (keepBundle_ok h) hg
  | pack names =>
    unfold runDirective at h
    split at h
    · simp at h
    · rename_i xa n s3 ha
      cases h
      exact pack_good ha hg
  | defineValue name v => exact defineValue_good (keepBundle_ok h) hg
  | defineSelector name v => exact defineSelector_good (keepBundle_ok h) hg
  | defineAction name ty => exact defineAction_good (keepBundle_ok h) hg
  | defineView name sel v => exact defineView_good h hg
  | addReducer name r => exact addReducer_good h hg
  | addEarlyReducer r => rw [keepState_ok h]; exact hg
  | addLateReducer r => rw [keepState_ok h]; exact hg
  | addSaga id => rw [keepState_ok h]; exact hg
  | addEnhancer e => exact addEnhancer_good (keepBundle_ok h) hg
  | defer cb => rw [keepState_ok h]; exact hg

theorem runBuilder_good {σ π : Type} {ds : List (Directive σ π)} {b : Bundle σ π}
    {s : LinkerState} {b2 : Bundle σ π} {s2 : LinkerState}
    (h : runBuilder ds b s = .ok (b2, s2)) (hg : GoodState s) : GoodState s2 := by
  cases ds with
  | nil =>
    unfold runBuilder at h
    cases h
    exact hg
  | cons d ds2 =>
    unfold runBuilder at h
    split at h
    · simp at h
    · rename_i xa b3 s3 ha
      exact runBuilder_good h (runDirective_good ha hg)
end

theorem inject_fields {f : TypeFilter} {s : LinkerState} {tid : Nat} {name : String}
    {s2 : LinkerState} (h : inject f s tid name = .ok s2) :
    s2.globalScope = s.globalScope ∧ s2.nameForActionType = s.nameForActionType := by
  unfold inject at h
  split at h
  · split at h
    · cases h; exact ⟨rfl, rfl⟩
    · simp at h
  · cases h; exact ⟨rfl, rfl⟩

theorem injectNames_fields {f : TypeFilter} {tid : Nat} {names : List String}
    {s s2 : LinkerState} (h : injectNames f tid names s = .ok s2) :
    s2.globalScope = s.globalScope ∧ s2.nameForActionType = s.nameForActionType := by
  induction names generalizing s with
  | nil => unfold injectNames at h; cases h; exact ⟨rfl, rfl⟩
  | cons n ns ih =>
    unfold injectNames at h
    split at h
    · simp at h
    · rename_i xa s3 ha
      obtain ⟨h1, h2⟩ := inject_fields ha
      obtain ⟨h3, h4⟩ := ih h
      exact ⟨h3.trans h1, h4.trans h2⟩

theorem injectQueue_fields {f : TypeFilter} {q : List (Nat × List String)}
    {s s2 : LinkerState} (h : injectQueue f q s = .ok s2) :
    s2.globalScope = s.globalScope ∧ s2.nameForActionType = s.nameForActionType := by
  induction q generalizing s with
  | nil => unfold injectQueue at h; cases h; exact ⟨rfl, rfl⟩
  | cons e rest ih =>
    obtain ⟨tid, names⟩ := e
    unfold injectQueue at h
    split at h
    · simp at h
    · rename_i xa s3 ha
      obtain ⟨h1, h2⟩ := injectNames_fields ha
      obtain ⟨h3, h4⟩ := ih h
      exact ⟨h3.trans h1, h4.trans h2⟩

theorem injectAll_fields {f : TypeFilter} {s s2 : LinkerState}
    (h : injectAll f s = .ok s2) :
    s2.globalScope = s.globalScope ∧ s2.nameForActionType = s.nameForActionType :=
  injectQueue_fields h

theorem good_of_fields {s s2 : LinkerState} (h1 : s2.globalScope = s.globalScope)
    (h2 : s2.nameForActionType = s.nameForActionType) (hg : GoodState s) :
    GoodState s2 := by
  unfold GoodState at *
  rw [h1, h2]
  exact hg

theorem linkViewOne_good {lid : Nat} {s : LinkerState} {v : ViewDecl}
    {s2 : LinkerState} (h : linkViewOne lid s v = .ok s2) (hg : GoodState s) :
    GoodState s2 := by
  unfold linkViewOne at h
  split at h
  · exact publish_good h hg
  · split at h
    · simp at h
    · exact publish_good h hg

theorem linkViewsOwn_good {lid : Nat} {vs : List ViewDecl} {s s2 : LinkerState}
    (h : linkViewsOwn lid vs s = .ok s2) (hg : GoodState s) : GoodState s2 := by
  induction vs generalizing s with
  | nil => unfold linkViewsOwn at h; cases h; exact hg
  | cons v vs2 ih =>
    unfold linkViewsOwn at h
    split at h
    · simp at h
    · rename_i xa s3 ha
      exact ih h (linkViewOne_good ha hg)

mutual
theorem linkViews_good {σ π : Type} {b : Bundle σ π} {s s2 : LinkerState}
    (h : b.linkViews s = .ok s2) (hg : GoodState s) : GoodState s2 := by
  cases b with
  | mk i er ar lr vs df sg sl bs =>
    unfold Bundle.linkViews at h
    split at h
    · simp at h
    · rename_i xa s3 ha
      exact linkViewsList_good h (linkViewsOwn_good ha hg)

theorem linkViewsList_good {σ π : Type} {bs : List (Bundle σ π)} {s s2 : LinkerState}
    (h : linkViewsList bs s = .ok s2) (hg : GoodState s) : GoodState s2 := by
  cases bs with
  | nil => unfold linkViewsList at h; cases h; exact hg
  | cons b bs2 =>
    unfold linkViewsList at h
    split at h
    · simp at h
    · rename_i xa s3 ha
      exact linkViewsList_good h (linkViews_good ha hg)
end

theorem link_ok_good {σ π : Type} {t : List (Directive σ π)} {res : LinkResult σ π}
    (h : link t = .ok res) :
    GoodState res.state ∧ res.scope = res.state.globalScope := by
  unfold link at h
  dsimp only at h
  split at h
  · simp at h
  · rename_i xa root1 s1 ha
    split at h
    · simp at h
    · rename_i xb s2 hb
      split at h
      · simp at h
      · rename_i xc s3 hc
        split at h
        · simp at h
        · rename_i xd s4 hd
          split at h
          · simp at h
          · rename_i xe am he
            cases h
            have hg0 : GoodState
                { globalScope := [], typeMap := [], nameForActionType := [],
                  enhancers := [], useQueue := [], scopes := [(0, [])], nextId := 1 } := by
              constructor <;> simp [akeys]
            have hg1 := runBuilder_good ha hg0
            obtain ⟨hb1, hb2⟩ := injectAll_fields hb
            have hg2 := good_of_fields hb1 hb2 hg1
            have hg3 := linkViews_good hc hg2
            obtain ⟨hd1, hd2⟩ := injectAll_fields hd
            have hg4 := good_of_fields hd1 hd2 hg3
            exact ⟨hg4, rfl⟩

end Invariants

section Claims

/-- C3 counterexample: combining two absent reducer operands does not
return an identity no-op transition function; it returns the absent value
(null/undefined), which is not a function at all. -/
theorem compose_both_absent_not_identity_fn :
    directCompose (none : Option (Nat → Nat → Nat)) none = none
    ∧ reverseCompose (none : Option (Nat → Nat → Nat)) none = none
    ∧ directCompose (none : Option (Nat → Nat → Nat)) none
        ≠ some (fun state _ => state)
    ∧ reverseCompose (none : Option (Nat → Nat → Nat)) none
        ≠ some (fun state _ => state) := by
  refine ⟨rfl, rfl, ?_, ?_⟩ <;> simp [directCompose, reverseCompose]

/-- C3 (amended): for both combinators, an absent operand in either
position yields the other operand unchanged; combining two absent
operands yields the absent value (not an identity function). -/
theorem compose_absent_operand_identity (σ α : Type) (f : σ → α → σ) :
    directCompose (some f) none = some f
    ∧ directCompose none (some f) = some f
    ∧ reverseCompose (some f) none = some f
    ∧ reverseCompose none (some f) = some f
    ∧ directCompose (none : Option (σ → α → σ)) none = none
    ∧ reverseCompose (none : Option (σ → α → σ)) none = none :=
  ⟨rfl, rfl, rfl, rfl, rfl, rfl⟩

set_option maxHeartbeats 2000000 in
/-- C5: with bundle A included before bundle B, each adding one early and
one late reducer, the composed early stage applies A's reducer before
B's, the composed late stage applies B's before A's, and the store
reducer built by `link` applies the early stage, then the action-dispatch
stage, then the late stage. -/
theorem reducer_stage_ordering (σ π : Type) (ea eb la lb ar : σ → Action π → σ)
    (state : σ) (p : π) :
    Bundle.earlyReducer (Bundle.mk 0 [] [] [] [] [] [] true
        [Bundle.mk 1 [ea] [] [la] [] [] [] true [],
         Bundle.mk 2 [eb] [] [lb] [] [] [] true []])
      = some (fun st a => eb (ea st a) a)
    ∧ Bundle.lateReducer (Bundle.mk 0 [] [] [] [] [] [] true
        [Bundle.mk 1 [ea] [] [la] [] [] [] true [],
         Bundle.mk 2 [eb] [] [lb] [] [] [] true []])
      = some (fun st a => la (lb st a) a)
    ∧ linkedReduce
        [ Directive.defineAction "act" "T",
          Directive.includeB [Directive.addEarlyReducer ea, Directive.addLateReducer la],
          Directive.includeB [Directive.addEarlyReducer eb, Directive.addLateReducer lb],
          Directive.addReducer "act" ar ] state (Action.mk "T" p)
      = some (la (lb (ar (eb (ea state (Action.mk "T" p)) (Action.mk "T" p))
          (Action.mk "T" p)) (Action.mk "T" p)) (Action.mk "T" p))
    ∧ linkedReduce
        [ Directive.defineAction "act" "T",
          Directive.includeB [Directive.addEarlyReducer ea, Directive.addLateReducer la],
          Directive.includeB [Directive.addEarlyReducer eb, Directive.addLateReducer lb],
          Directive.addReducer "act" ar ] state (Action.mk "U" p)
      = some (la (lb (eb (ea state (Action.mk "U" p)) (Action.mk "U" p))
          (Action.mk "U" p)) (Action.mk "U" p)) :=
  ⟨rfl, rfl, rfl, rfl⟩

/-- C6: two `addReducer` calls for the same action name within one bundle
compose so that the first-declared reducer runs first and its output
feeds the second; a pair of reducers for the same action type declared in
a parent bundle and in an included bundle compose in tree order in the
same direction. -/
theorem action_reducer_chain_ordering (σ π : Type) (r1 r2 : σ → Action π → σ) :
    Bundle.buildActionMap
        (Bundle.mk 0 [] [("n", r1), ("n", r2)] [] [] [] [] true [])
        { globalScope := [], typeMap := [], nameForActionType := [],
          enhancers := [], useQueue := [],
          scopes := [(0, [("n", Value.str "T")])], nextId := 1 } []
      = .ok [(Value.str "T", fun st a => r2 (r1 st a) a)]
    ∧ Bundle.buildActionMap
        (Bundle.mk 0 [] [("n", r1)] [] [] [] [] true
          [Bundle.mk 1 [] [("m", r2)] [] [] [] [] true []])
        { globalScope := [], typeMap := [], nameForActionType := [],
          enhancers := [], useQueue := [],
          scopes := [(0, [("n", Value.str "T")]), (1, [("m", Value.str "T")])],
          nextId := 2 } []
      = .ok [(Value.str "T", fun st a => r2 (r1 st a) a)] :=
  ⟨rfl, rfl⟩

/-- C9: during view linking, a view declared with a string selector name
resolves that name in the declaring bundle's locals — not in the global
namespace — fails when the resolved value is not a function, and the
published view's displayName is exactly "View(" ++ name ++ ")". -/
theorem view_selector_resolution (k impl : Nat) (name selName : String) :
    Bundle.linkViews
        (Bundle.mk (σ := Nat) (π := Nat) 0 [] [] [] [ViewDecl.mk name (some (Sum.inl selName)) impl] [] [] true [])
        { globalScope := [], typeMap := [], nameForActionType := [],
          enhancers := [], useQueue := [],
          scopes := [(0, [(selName, Value.fn k)])], nextId := 1 }
      = .ok { globalScope := [(name, Value.view (some k) impl ("View(" ++ name ++ ")"))],
              typeMap := [(name, "view")], nameForActionType := [],
              enhancers := [], useQueue := [],
              scopes := [(0, [(selName, Value.fn k)])], nextId := 1 }
    ∧ Bundle.linkViews
        (Bundle.mk (σ := Nat) (π := Nat) 0 [] [] [] [ViewDecl.mk name (some (Sum.inl selName)) impl] [] [] true [])
        { globalScope := [], typeMap := [], nameForActionType := [],
          enhancers := [], useQueue := [],
          scopes := [(0, [(selName, Value.raw k)])], nextId := 1 }
      = .error .invalidSelector
    ∧ Bundle.linkViews
        (Bundle.mk (σ := Nat) (π := Nat) 0 [] [] [] [ViewDecl.mk name (some (Sum.inl selName)) impl] [] [] true [])
        { globalScope := [(selName, Value.fn k)], typeMap := [(selName, "selector")],
          nameForActionType := [], enhancers := [], useQueue := [],
          scopes := [(0, [])], nextId := 1 }
      = .error (.undeclaredDependency selName)
    ∧ Bundle.linkViews
        (Bundle.mk (σ := Nat) (π := Nat) 0 [] [] [] [ViewDecl.mk name none impl] [] [] true [])
        { globalScope := [], typeMap := [], nameForActionType := [],
          enhancers := [], useQueue := [],
          scopes := [(0, [])], nextId := 1 }
      = .ok { globalScope := [(name, Value.view none impl ("View(" ++ name ++ ")"))],
              typeMap := [(name, "view")], nameForActionType := [],
              enhancers := [], useQueue := [],
              scopes := [(0, [])], nextId := 1 } := by
  refine ⟨?_, ?_, ?_, ?_⟩ <;>
    simp [Bundle.linkViews, linkViewsList, linkViewsOwn, linkViewOne,
      resolveSelector, scopeOf, alookup, aset, publish, akeys]

/-- C2 counterexample: `finalize(...args)` does not pass its arguments to
the deferred callbacks: at the concrete tree with one deferred callback 7,
`finalize` with argument list [5] invokes callback 7 with the empty
argument list, not with [5]. -/
theorem finalize_drops_arguments_cex :
    (link ([Directive.defer 7] : List (Directive Nat Nat))).map
        (fun res => finalize res [5]) = .ok [(7, [])]
    ∧ [(7, ([] : List Nat))] ≠ [(7, [5])] :=
  ⟨rfl, by decide⟩

/-- C2 (amended): `finalize(...args)` invokes every deferred callback of
the bundle tree in depth-first order — a bundle's own callbacks before
any child bundle's — but invokes each callback with no arguments: the
arguments given to `finalize` are not forwarded. -/
theorem finalize_depth_first_no_args :
    (∀ (σ π A : Type) (res : LinkResult σ π) (args1 args2 : List A),
        finalize res args1 = finalize res args2)
    ∧ (∀ (d0 dA dG dB : List Nat) (args : List Nat),
        finalize (σ := Nat) (π := Nat)
          { scope := [], reducer := none,
            root := Bundle.mk 0 [] [] [] [] d0 [] true
              [Bundle.mk 1 [] [] [] [] dA [] true
                 [Bundle.mk 3 [] [] [] [] dG [] true []],
               Bundle.mk 2 [] [] [] [] dB [] true []],
            state := { globalScope := [], typeMap := [], nameForActionType := [],
                       enhancers := [], useQueue := [], scopes := [], nextId := 0 } }
          args
          = (d0 ++ dA ++ dG ++ dB).map (fun cb => (cb, ([] : List Nat))))
    ∧ (∀ args : List Nat,
        (link ([Directive.defer 1,
                Directive.includeB [Directive.defer 2, Directive.defer 3],
                Directive.defer 4] : List (Directive Nat Nat))).map
            (fun res => finalize res args)
          = .ok [(1, []), (4, []), (2, []), (3, [])]) := by
  refine ⟨fun σ π A res a1 a2 => rfl, ?_, fun args => rfl⟩
  intro d0 dA dG dB args
  simp [finalize, Bundle.runDefers, runDefersList]

/-- C4 counterexample: `lookup` invoked on a sealed bundle does not fail
with the already-sealed error; it performs the global read and returns
normally. -/
theorem lookup_not_seal_checked_cex :
    Bundle.sealed (Bundle.mk (σ := Nat) (π := Nat) 0 [] [] [] [] [] [] true []) = true
    ∧ Bundle.lookup (Bundle.mk (σ := Nat) (π := Nat) 0 [] [] [] [] [] [] true [])
        { globalScope := [("x", Value.raw 1)], typeMap := [("x", "value")],
          nameForActionType := [], enhancers := [], useQueue := [],
          scopes := [], nextId := 0 } "x"
        = .ok (some (Value.raw 1))
    ∧ (Except.ok (some (Value.raw 1)) : Except LinkError (Option Value))
        ≠ .error .sealedError :=
  ⟨rfl, rfl, by simp⟩

/-- C4 (amended): after sealing, every public bundle operation except
`lookup` fails with the already-sealed error; `lookup` performs no sealed
check and always returns the global read. -/
theorem sealed_directives_error (σ π : Type) :
    (∀ (builder : List (Directive σ π)) (b : Bundle σ π) (s : LinkerState),
        b.sealed = true →
        runDirective (.includeB builder) b s = .error .sealedError)
    ∧ (∀ (b : Bundle σ π) (s : LinkerState) (names : List String),
        b.sealed = true → b.use s names = .error .sealedError)
    ∧ (∀ (b : Bundle σ π) (s : LinkerState) (names : List String),
        b.sealed = true → b.pack s names = .error .sealedError)
    ∧ (∀ (b : Bundle σ π) (s : LinkerState) (name : String) (v : Value),
        b.sealed = true → b.defineValue s name v = .error .sealedError)
    ∧ (∀ (b : Bundle σ π) (s : LinkerState) (name : String) (v : Value),
        b.sealed = true → b.defineSelector s name v = .error .sealedError)
    ∧ (∀ (b : Bundle σ π) (s : LinkerState) (name ty : String),
        b.sealed = true → b.defineAction s name ty = .error .sealedError)
    ∧ (∀ (b : Bundle σ π) (s : LinkerState) (name : String)
          (sel : Option (String ⊕ Nat)) (v : Nat),
        b.sealed = true → b.defineView s name sel v = .error .sealedError)
    ∧ (∀ (b : Bundle σ π) (s : LinkerState) (name : String) (r : σ → Action π → σ),
        b.sealed = true → b.addReducer s name r = .error .sealedError)
    ∧ (∀ (b : Bundle σ π) (r : σ → Action π → σ),
        b.sealed = true → b.addEarlyReducer r = .error .sealedError)
    ∧ (∀ (b : Bundle σ π) (r : σ → Action π → σ),
        b.sealed = true → b.addLateReducer r = .error .sealedError)
    ∧ (∀ (b : Bundle σ π) (sg : Nat),
        b.sealed = true → b.addSaga sg = .error .sealedError)
    ∧ (∀ (b : Bundle σ π) (s : LinkerState) (e : Nat),
        b.sealed = true → b.addEnhancer s e = .error .sealedError)
    ∧ (∀ (b : Bundle σ π) (cb : Nat),
        b.sealed = true → b.defer cb = .error .sealedError)
    ∧ (∀ (b : Bundle σ π) (s : LinkerState) (name : String),
        b.lookup s name = .ok (lookupGlobal s name)) := by
  refine ⟨?_, ?_, ?_, ?_, ?_, ?_, ?_, ?_, ?_, ?_, ?_, ?_, ?_, ?_⟩ <;>
    intros <;>
    simp_all [runDirective, Bundle.use, Bundle.pack, Bundle.defineValue,
      Bundle.defineSelector, Bundle.defineAction, Bundle.defineView,
      Bundle.addReducer, Bundle.addEarlyReducer, Bundle.addLateReducer,
      Bundle.addSaga, Bundle.addEnhancer, Bundle.defer, Bundle.lookup]

/-- C4 witness: concrete sealed-bundle calls produced by the theorem. -/
theorem sealed_directives_error_witness :
    Bundle.use (Bundle.mk (σ := Nat) (π := Nat) 0 [] [] [] [] [] [] true [])
      { globalScope := [], typeMap := [], nameForActionType := [], enhancers := [],
        useQueue := [], scopes := [], nextId := 0 } ["x"] = .error .sealedError
    ∧ Bundle.defer (Bundle.mk (σ := Nat) (π := Nat) 0 [] [] [] [] [] [] true []) 5
        = .error .sealedError :=
  ⟨(sealed_directives_error Nat Nat).2.1 _ _ _ rfl,
   (sealed_directives_error Nat Nat).2.2.2.2.2.2.2.2.2.2.2.2.1 _ _ rfl⟩

/-- C10: for a name absent from the global namespace, the bundle-node
`lookup` returns `undefined` (none) without error, while a read of an
undeclared key on a local dependency view fails with the
undeclared-dependency error and a read of an absent key on the exported
scope fails with the undefined-name error. -/
theorem lookup_missing_returns_undefined (σ π : Type) (b : Bundle σ π)
    (st : LinkerState) (name : String) (lid : Nat)
    (h1 : alookup st.globalScope name = none)
    (h2 : alookup (scopeOf st lid) name = none) :
    Bundle.lookup b st name = .ok none
    ∧ localsRead st lid name = .error (.undeclaredDependency name)
    ∧ scopeRead { scope := st.globalScope, reducer := none, root := b, state := st }
        name = .error (.undefinedName name) := by
  refine ⟨?_, ?_, ?_⟩
  · simp [Bundle.lookup, lookupGlobal, h1]
  · simp [localsRead, safeProxyGet, h2]
  · simp [scopeRead, safeProxyGet, h1]

/-- C10 witness: the theorem applied at a concrete empty state and the
name "zzz". -/
theorem lookup_missing_returns_undefined_witness :
    Bundle.lookup (Bundle.new (σ := Nat) (π := Nat) 0)
      { globalScope := [], typeMap := [], nameForActionType := [], enhancers := [],
        useQueue := [], scopes := [], nextId := 0 } "zzz" = .ok none
    ∧ localsRead
        { globalScope := [], typeMap := [], nameForActionType := [], enhancers := [],
          useQueue := [], scopes := [], nextId := 0 } 0 "zzz"
        = .error (.undeclaredDependency "zzz")
    ∧ scopeRead
        { scope := [], reducer := none, root := Bundle.new (σ := Nat) (π := Nat) 0,
          state := { globalScope := [], typeMap := [], nameForActionType := [],
                     enhancers := [], useQueue := [], scopes := [], nextId := 0 } }
        "zzz" = .error (.undefinedName "zzz") :=
  lookup_missing_returns_undefined Nat Nat (Bundle.new 0)
    { globalScope := [], typeMap := [], nameForActionType := [], enhancers := [],
      useQueue := [], scopes := [], nextId := 0 } "zzz" 0 rfl rfl

/-- C1: a name declared through `use`/`pack`/the implicit `use` of the
define calls but never published does NOT make `link` fail: both
injection passes of `link` carry a type filter, an unpublished name has
no entry in the type map, and a filter miss returns before the
undefined-dependency check, so the queued entry is silently skipped (the
array filter matches no undefined type; the string filter 'views'
coerces the undefined type to "undefined", which is not a substring).
Consequently `link` of a bundle that uses the never-published name
"missing" succeeds. -/
theorem unresolved_use_not_an_error :
    (∀ (s : LinkerState) (tid : Nat) (name : String),
        alookup s.typeMap name = none →
        inject (.arr ["action", "selector", "value"]) s tid name = .ok s
        ∧ inject (.str "views") s tid name = .ok s)
    ∧ (∃ res, link ([Directive.use ["missing"]] : List (Directive Nat Nat)) = .ok res) := by
  constructor
  · intro s tid name h
    have h1 : injectProceeds (.arr ["action", "selector", "value"]) s name = false := by
      simp [injectProceeds, filterHit, h]
    have h2 : injectProceeds (.str "views") s name = false := by
      simp only [injectProceeds, filterHit, h]
      decide
    exact ⟨by simp [inject, h1], by simp [inject, h2]⟩
  · exact ⟨_, rfl⟩

/-- C1 witness: the skip behaviour at a concrete state whose type map is
empty and the name "missing". -/
theorem unresolved_use_not_an_error_witness :
    inject (.arr ["action", "selector", "value"])
      { globalScope := [], typeMap := [], nameForActionType := [], enhancers := [],
        useQueue := [(0, ["missing"])], scopes := [(0, [])], nextId := 1 } 0 "missing"
      = .ok { globalScope := [], typeMap := [], nameForActionType := [], enhancers := [],
              useQueue := [(0, ["missing"])], scopes := [(0, [])], nextId := 1 }
    ∧ inject (.str "views")
      { globalScope := [], typeMap := [], nameForActionType := [], enhancers := [],
        useQueue := [(0, ["missing"])], scopes := [(0, [])], nextId := 1 } 0 "missing"
      = .ok { globalScope := [], typeMap := [], nameForActionType := [], enhancers := [],
              useQueue := [(0, ["missing"])], scopes := [(0, [])], nextId := 1 } :=
  unresolved_use_not_an_error.1
    { globalScope := [], typeMap := [], nameForActionType := [], enhancers := [],
      useQueue := [(0, ["missing"])], scopes := [(0, [])], nextId := 1 } 0 "missing" rfl

/-- C7: `publish` rejects any name that is already in the global scope
with the name-conflict error carrying that name; a tree whose two define
calls publish the same name makes `link` fail with that error, whatever
the published values; and on any successful link the published names are
pairwise distinct — each name is published at most once tree-wide. -/
theorem publish_name_conflict_unique :
    (∀ (s : LinkerState) (ty name : String) (v : Value),
        (alookup s.globalScope name).isSome = true →
        publish s ty name v = .error (.conflict name))
    ∧ (∀ (name : String) (v1 v2 : Value),
        link ([Directive.defineValue name v1, Directive.defineValue name v2]
          : List (Directive Nat Nat)) = .error (.conflict name))
    ∧ (∀ (σ π : Type) (t : List (Directive σ π)) (res : LinkResult σ π),
        link t = .ok res → (akeys res.scope).Nodup) := by
  refine ⟨?_, ?_, ?_⟩
  · intro s ty name v h
    unfold publish
    simp [h]
  · intro name v1 v2
    simp [link, runBuilder, runDirective, Bundle.defineValue, Bundle.use, Bundle.new,
      Bundle.sealed, publish, keepBundle, declareUse, alookup]
  · intro σ π t res h
    obtain ⟨hg, hs⟩ := link_ok_good h
    rw [hs]
    exact hg.1

/-- C7 witness: the conflict at a concrete occupied scope, and the
no-duplicates invariant at the concrete result of linking the empty
builder. -/
theorem publish_name_conflict_unique_witness :
    publish { globalScope := [("x", Value.raw 0)], typeMap := [("x", "value")],
              nameForActionType := [], enhancers := [], useQueue := [],
              scopes := [], nextId := 0 } "value" "x" (Value.raw 1)
      = .error (.conflict "x")
    ∧ (akeys ([] : List (String × Value))).Nodup :=
  ⟨publish_name_conflict_unique.1 _ "value" "x" (Value.raw 1) rfl,
   publish_name_conflict_unique.2.2 Nat Nat []
     { scope := [], reducer := some (fun state _ => state),
       root := Bundle.mk 0 [] [] [] [] [] [] true [],
       state := { globalScope := [], typeMap := [], nameForActionType := [],
                  enhancers := [], useQueue := [], scopes := [(0, [])], nextId := 1 } }
     rfl⟩

/-- C8: `declareActionType` rejects an already-claimed action-type string
with the type-conflict error carrying that string, whatever the declared
names; two `defineAction` calls claiming the same type string make
`link` fail with that error even when the declared names coincide; on
any successful link the registered action types are pairwise distinct;
and the type-conflict error is distinct from the name-conflict error. -/
theorem action_type_conflict_unique :
    (∀ (s : LinkerState) (ty name : String),
        (alookup s.nameForActionType ty).isSome = true →
        declareActionType s ty name = .error (.actionTypeConflict ty))
    ∧ (∀ (name1 name2 ty : String),
        link ([Directive.defineAction name1 ty, Directive.defineAction name2 ty]
          : List (Directive Nat Nat)) = .error (.actionTypeConflict ty))
    ∧ (∀ (σ π : Type) (t : List (Directive σ π)) (res : LinkResult σ π),
        link t = .ok res → (res.state.nameForActionType.map Prod.fst).Nodup)
    ∧ (∀ (ty name : String),
        (LinkError.actionTypeConflict ty : LinkError) ≠ .conflict name) := by
  refine ⟨?_, ?_, ?_, ?_⟩
  · intro s ty name h
    unfold declareActionType
    simp [h]
  · intro name1 name2 ty
    simp [link, runBuilder, runDirective, Bundle.defineAction, Bundle.use, Bundle.new,
      Bundle.sealed, publish, declareActionType, keepBundle, declareUse, alookup]
  · intro σ π t res h
    exact (link_ok_good h).1.2
  · intro ty name
    simp

/-- C8 witness: the type conflict at a concrete occupied registry, and
the registry invariant at the concrete result of linking the empty
builder. -/
theorem action_type_conflict_unique_witness :
    declareActionType
      { globalScope := [], typeMap := [], nameForActionType := [("T", "a")],
        enhancers := [], useQueue := [], scopes := [], nextId := 0 } "T" "b"
      = .error (.actionTypeConflict "T")
    ∧ (([] : List (String × String)).map Prod.fst).Nodup :=
  ⟨action_type_conflict_unique.1 _ "T" "b" rfl,
   action_type_conflict_unique.2.2.1 Nat Nat []
     { scope := [], reducer := some (fun state _ => state),
       root := Bundle.mk 0 [] [] [] [] [] [] true [],
       state := { globalScope := [], typeMap := [], nameForActionType := [],
                  enhancers := [], useQueue := [], scopes := [(0, [])], nextId := 1 } }
     rfl⟩

end Claims

end EpicLinker
